import Mathlib

/-!
Shallow embedding of the sensor-acquisition and filtering pipeline of the
HUD program (class MPU6050 and the widget update callback in main3.py).

Machine integers are modelled as Int/Nat; register reads over I2C are a map
from register address to the byte returned, with `none` standing for a read
that raises an I2C error (the code catches every such error inside
read_word and substitutes 0).  Converted physical values are rationals; the
attitude angles, which involve atan2/sqrt, are reals.
-/

namespace HUD

/-- Three-axis sample (x, y, z), matching the dicts used in main3.py. -/
structure Vec3 where
  x : ℚ
  y : ℚ
  z : ℚ
deriving DecidableEq

/-- The I2C bus: register address to the byte a read returns; none models a
read that raises an error. -/
abbrev Bus := Nat → Option Nat

/-- Pipeline state: the mutable fields of the MPU6050 object. -/
structure SensorState where
  sensor_available : Bool
  last_accel : Vec3
  last_gyro : Vec3
  prev_accel : Vec3
  prev_gyro : Vec3
  filtered_pitch : ℝ
  filtered_roll : ℝ
  filtered_yaw : ℚ

/-- Decoding of a 16-bit register word, from MPU6050.read_word:
values at or above 0x8000 are reinterpreted as negative. -/
def decode_word (value : ℤ) : ℤ :=
  if 0x8000 ≤ value then -((65535 - value) + 1) else value

/-- Big-endian two's-complement encoding of a signed value back to the two
bytes whose composition read_word decodes; this is the inverse direction of
the round-trip property (the program itself never writes sample words). -/
def encode_word (d : ℤ) : ℕ × ℕ :=
  (((d % 65536) / 256).toNat, (d % 256).toNat)

/-- MPU6050.read_word: compose two consecutive byte reads as high*256 + low
and decode; returns 0 when the sensor is unavailable or a read errors.
Of the object state the method only reads the availability flag, which is
the explicit first argument here. -/
def read_word (sensor_available : Bool) (bus : Bus) (register : Nat) : ℤ :=
  if sensor_available = false then 0 else
  match bus register, bus (register + 1) with
  | some high, some low => decode_word ((high : ℤ) * 256 + (low : ℤ))
  | _, _ => 0

/-- Converted accelerometer triple (g): registers 0x3b/0x3d/0x3f over 16384. -/
def rawAccel (sensor_available : Bool) (bus : Bus) : Vec3 :=
  ⟨((read_word sensor_available bus 0x3b : ℤ) : ℚ) / 16384,
   ((read_word sensor_available bus 0x3d : ℤ) : ℚ) / 16384,
   ((read_word sensor_available bus 0x3f : ℤ) : ℚ) / 16384⟩

/-- Converted gyroscope triple (deg/s): registers 0x43/0x45/0x47 over 131. -/
def rawGyro (sensor_available : Bool) (bus : Bus) : Vec3 :=
  ⟨((read_word sensor_available bus 0x43 : ℤ) : ℚ) / 131,
   ((read_word sensor_available bus 0x45 : ℤ) : ℚ) / 131,
   ((read_word sensor_available bus 0x47 : ℤ) : ℚ) / 131⟩

/-- Accelerometer dead zone constant (0.05 g in the source). -/
def dead_zone_accel : ℚ := 1/20

/-- Gyro dead zone constant (1.5 deg/s in the source). -/
def dead_zone_gyro : ℚ := 3/2

/-- Gyro rate limit constant (2.0 deg/s per tick in the source). -/
def max_change : ℚ := 2

/-- Smoothing coefficient alpha (0.05 in the source). -/
def alpha : ℚ := 1/20

/-- Accelerometer per-axis dead zone from read_accel_data: freeze to the
previous value when the change is small. -/
def accelDeadZone (new prev : ℚ) : ℚ :=
  if |new - prev| < dead_zone_accel then prev else new

/-- Gyro per-axis dead zone from read_gyro_data: zero small absolute values. -/
def gyroDeadZone (v : ℚ) : ℚ :=
  if |v| < dead_zone_gyro then 0 else v

/-- Gyro per-axis rate limiter from read_gyro_data: clamp the step from the
previous stored value to max_change, toward the new value. -/
def gyroRateLimit (new prev : ℚ) : ℚ :=
  if |new - prev| > max_change then
    prev + max_change * (if new > prev then 1 else -1)
  else new

/-- Pre-smoothing gyro pipeline for one axis: dead zone then rate limiter,
exactly the order of read_gyro_data. -/
def gyroPre (new prev : ℚ) : ℚ :=
  gyroRateLimit (gyroDeadZone new) prev

/-- Exponential smoothing from the source: alpha*new + (1-alpha)*prev. -/
def smooth (new prev : ℚ) : ℚ :=
  alpha * new + (1 - alpha) * prev

/-- Sign of a rational, as in the claim about the rate limiter. -/
def sgn (q : ℚ) : ℚ :=
  if 0 < q then 1 else if q < 0 then -1 else 0

/-- MPU6050.read_accel_data: convert, dead zone against prev_accel, store
the post-dead-zone triple in prev_accel, smooth into last_accel, and return
last_accel.  (The except branch of the source is unreachable: read errors
are already caught inside read_word.) -/
def read_accel_data (st : SensorState) (bus : Bus) : Vec3 × SensorState :=
  if st.sensor_available = false then (⟨0, 0, 0⟩, st) else
  let raw := rawAccel st.sensor_available bus
  let px := accelDeadZone raw.x st.prev_accel.x
  let py := accelDeadZone raw.y st.prev_accel.y
  let pz := accelDeadZone raw.z st.prev_accel.z
  let la : Vec3 := ⟨smooth px st.last_accel.x, smooth py st.last_accel.y,
                    smooth pz st.last_accel.z⟩
  (la, { st with prev_accel := ⟨px, py, pz⟩, last_accel := la })

/-- MPU6050.read_gyro_data: convert, dead zone, rate limit against
prev_gyro, store the clamped triple in prev_gyro, smooth into last_gyro,
and return last_gyro. -/
def read_gyro_data (st : SensorState) (bus : Bus) : Vec3 × SensorState :=
  if st.sensor_available = false then (⟨0, 0, 0⟩, st) else
  let raw := rawGyro st.sensor_available bus
  let px := gyroPre raw.x st.prev_gyro.x
  let py := gyroPre raw.y st.prev_gyro.y
  let pz := gyroPre raw.z st.prev_gyro.z
  let lg : Vec3 := ⟨smooth px st.last_gyro.x, smooth py st.last_gyro.y,
                    smooth pz st.last_gyro.z⟩
  (lg, { st with prev_gyro := ⟨px, py, pz⟩, last_gyro := lg })

/-- MPU6050.read_temp_data: datasheet formula raw/340 + 36.53; mutates no
state. -/
def read_temp_data (st : SensorState) (bus : Bus) : ℚ :=
  if st.sensor_available = false then 0 else
  ((read_word st.sensor_available bus 0x41 : ℤ) : ℚ) / 340 + 3653/100

/-- Python math.atan2, in terms of Real.arctan. -/
noncomputable def atan2 (y x : ℝ) : ℝ :=
  if 0 < x then Real.arctan (y / x)
  else if x < 0 then
    (if 0 ≤ y then Real.arctan (y / x) + Real.pi
     else Real.arctan (y / x) - Real.pi)
  else if 0 < y then Real.pi / 2
  else if y < 0 then -(Real.pi / 2)
  else 0

/-- Result of MPU6050.get_rotation_angles: pitch and roll are reals (atan2
is involved); yaw only ever accumulates rational gyro values. -/
structure Angles where
  pitch : ℝ
  roll : ℝ
  yaw : ℚ

/-- MPU6050.get_rotation_angles: read accel then gyro (each with filtering),
compute accelerometer tilt, blend with integrated gyro rate through the
complementary filter, and integrate yaw open loop. -/
noncomputable def get_rotation_angles (st : SensorState) (bus : Bus) :
    Angles × SensorState :=
  if st.sensor_available = false then (⟨0, 0, 0⟩, st) else
  let ar := read_accel_data st bus
  let gr := read_gyro_data ar.2 bus
  let accel := ar.1
  let gyro := gr.1
  let accel_roll := atan2 (accel.y : ℝ) (accel.z : ℝ) * 180 / Real.pi
  let accel_pitch := atan2 (-(accel.x : ℝ))
      (Real.sqrt ((accel.y : ℝ) * (accel.y : ℝ) +
                  (accel.z : ℝ) * (accel.z : ℝ))) * 180 / Real.pi
  let dt : ℚ := 1/30
  let filter_coef : ℝ := 995/1000
  let gyro_scale : ℝ := 3/10
  let st1 := gr.2
  let froll := filter_coef * (st1.filtered_roll +
      (gyro.x : ℝ) * ((dt : ℚ) : ℝ) * gyro_scale) +
      (1 - filter_coef) * accel_roll
  let fpitch := filter_coef * (st1.filtered_pitch +
      (gyro.y : ℝ) * ((dt : ℚ) : ℝ) * gyro_scale) +
      (1 - filter_coef) * accel_pitch
  let fyaw := st1.filtered_yaw + gyro.z * dt * (1/10)
  (⟨fpitch, froll, fyaw⟩,
   { st1 with filtered_pitch := fpitch, filtered_roll := froll,
              filtered_yaw := fyaw })

/-- Zero small magnitudes, scale by 10, clamp to [0, 200]: the scalar tail
of MPU6050.estimate_speed as a function of the gravity-removed magnitude. -/
noncomputable def speedOfMagnitude (m : ℝ) : ℝ :=
  max 0 (min 200 ((if m < 1/10 then 0 else m) * 10))

/-- MPU6050.estimate_speed: read (and filter) accel, remove 1 g from z,
take the Euclidean magnitude, then dead-zone, scale and clamp. -/
noncomputable def estimate_speed (st : SensorState) (bus : Bus) :
    ℝ × SensorState :=
  if st.sensor_available = false then (0, st) else
  let ar := read_accel_data st bus
  let accel := ar.1
  let accel_z_without_gravity : ℝ := (accel.z : ℝ) - 1
  let magnitude := Real.sqrt ((accel.x : ℝ) ^ 2 + (accel.y : ℝ) ^ 2 +
      accel_z_without_gravity ^ 2)
  (speedOfMagnitude magnitude, ar.2)

/-- Python float modulo by 360 (sign of the divisor). -/
def qmod360 (x : ℚ) : ℚ := x - 360 * ⌊x / 360⌋

/-- The widget fields that the update callback touches. -/
structure WidgetState where
  heading : ℚ
  speed : ℝ
  pitch : ℝ
  roll : ℝ
  yaw : ℚ
  scan_angle : ℚ
  data_points : List ℚ

/-- StarkHUDWidget.update: get rotation angles, re-integrate the returned
yaw into the widget yaw, take heading modulo 360, estimate speed, then one
more accel read and one more gyro read for the data visualisation. -/
noncomputable def update (w : WidgetState) (st : SensorState) (bus : Bus)
    (dt : ℚ) : WidgetState × SensorState :=
  let ga := get_rotation_angles st bus
  let angles := ga.1
  let yaw2 := w.yaw + angles.yaw * dt
  let es := estimate_speed ga.2 bus
  let ar := read_accel_data es.2 bus
  let gr := read_gyro_data ar.2 bus
  let accel := ar.1
  let new_point := (|accel.x| + |accel.y| + |accel.z|) / 6
  ({ w with pitch := angles.pitch, roll := angles.roll,
            yaw := yaw2, heading := qmod360 yaw2, speed := es.1,
            scan_angle := qmod360 (w.scan_angle + 5),
            data_points := (w.data_points ++ [new_point]).tail },
   gr.2)

/-- State transition of one accelerometer read. -/
def accelT (bus : Bus) (st : SensorState) : SensorState :=
  (read_accel_data st bus).2

/-- State transition of one gyro read. -/
def gyroT (bus : Bus) (st : SensorState) : SensorState :=
  (read_gyro_data st bus).2

/-- A bus on which every byte read raises. -/
def failBus : Bus := fun _ => none

/-- A bus on which every register reads as zero. -/
def zeroBus : Bus := fun _ => some 0

/-- Zero triple. -/
def vzero : Vec3 := ⟨0, 0, 0⟩

/-- All-ones triple. -/
def vone : Vec3 := ⟨1, 1, 1⟩

/-- A state with the sensor marked unavailable. -/
def stUnavail : SensorState := ⟨false, vone, vone, vone, vone, 0, 0, 0⟩

/-- An available state whose smoothed accel differs from its previous raw
accel. -/
def stAccel : SensorState := ⟨true, vone, vzero, vzero, vzero, 0, 0, 0⟩

/-- An available state with accumulated yaw 30. -/
def stYaw : SensorState := ⟨true, vzero, vzero, vzero, vzero, 0, 0, 30⟩

/-- An available state tuned so that two consecutive gyro reads of zero raw
words return the same smoothed x value. -/
def stGyro : SensorState := ⟨true, vzero, ⟨112/19, 0, 0⟩, vzero, ⟨10, 0, 0⟩, 0, 0, 0⟩

/-- A widget state with everything zeroed. -/
def w0 : WidgetState := ⟨0, 0, 0, 0, 0, 0, []⟩

/-- An available state whose smoothed gyro differs from its previous raw
gyro. -/
def stGyro2 : SensorState := ⟨true, vzero, vone, vzero, vzero, 0, 0, 0⟩

/-- C3: whenever sensor_available is false, every pipeline operation
(read_word, read_accel_data, read_gyro_data, read_temp_data,
get_rotation_angles, estimate_speed) returns all-zero results, never
raises, and leaves the state unchanged. -/
theorem c3_unavailable_all_zero (st : SensorState) (bus : Bus) (reg : Nat)
    (h : st.sensor_available = false) :
    read_word st.sensor_available bus reg = 0 ∧
    read_accel_data st bus = (⟨0, 0, 0⟩, st) ∧
    read_gyro_data st bus = (⟨0, 0, 0⟩, st) ∧
    read_temp_data st bus = 0 ∧
    get_rotation_angles st bus = (⟨0, 0, 0⟩, st) ∧
    estimate_speed st bus = (0, st) := by
  refine ⟨?_, ?_, ?_, ?_, ?_, ?_⟩ <;>
    simp [read_word, read_accel_data, read_gyro_data, read_temp_data,
          get_rotation_angles, estimate_speed, h]

/-- Witness for C3 at a concrete unavailable state and bus. -/
theorem c3_witness :
    stUnavail.sensor_available = false ∧
    read_word stUnavail.sensor_available zeroBus 7 = 0 ∧
    read_accel_data stUnavail zeroBus = (⟨0, 0, 0⟩, stUnavail) ∧
    read_gyro_data stUnavail zeroBus = (⟨0, 0, 0⟩, stUnavail) ∧
    read_temp_data stUnavail zeroBus = 0 ∧
    get_rotation_angles stUnavail zeroBus = (⟨0, 0, 0⟩, stUnavail) ∧
    estimate_speed stUnavail zeroBus = (0, stUnavail) := by
  have h := c3_unavailable_all_zero stUnavail zeroBus 7 rfl
  exact ⟨rfl, h.1, h.2.1, h.2.2.1, h.2.2.2.1, h.2.2.2.2.1, h.2.2.2.2.2⟩

/-- C4: read_word composes two consecutive byte reads as high*256 + low;
decoding satisfies decode v = v for v below 0x8000 and v - 65536 otherwise,
and re-encoding the decoded value reproduces both bytes. -/
theorem c4_word_decode_roundtrip :
    (∀ (bus : Bus) (reg high low : ℕ),
        bus reg = some high → bus (reg + 1) = some low →
        read_word true bus reg = decode_word ((high : ℤ) * 256 + low)) ∧
    (∀ high low : ℕ, high ≤ 255 → low ≤ 255 →
        decode_word ((high : ℤ) * 256 + low) =
          (if (high : ℤ) * 256 + low < 0x8000 then (high : ℤ) * 256 + low
           else (high : ℤ) * 256 + low - 65536) ∧
        encode_word (decode_word ((high : ℤ) * 256 + low)) = (high, low)) := by
  constructor
  · intro bus reg high low hb hc
    simp [read_word, hb, hc]
  · intro high low hh hl
    unfold decode_word encode_word
    constructor
    · split_ifs <;> omega
    · split_ifs <;> simp [Prod.ext_iff] <;> omega

/-- Witness for C4 at the concrete word 0x8005 (high 0x80, low 0x05). -/
theorem c4_witness :
    (128 : ℕ) ≤ 255 ∧ (5 : ℕ) ≤ 255 ∧ zeroBus 3 = some 0 ∧
    read_word true zeroBus 3 = decode_word ((0 : ℤ) * 256 + 0) ∧
    decode_word ((128 : ℤ) * 256 + 5) =
      (if (128 : ℤ) * 256 + 5 < 0x8000 then (128 : ℤ) * 256 + 5
       else (128 : ℤ) * 256 + 5 - 65536) ∧
    encode_word (decode_word ((128 : ℤ) * 256 + 5)) = (128, 5) := by
  have h1 := c4_word_decode_roundtrip.1 zeroBus 3 0 0 rfl rfl
  have h2 := c4_word_decode_roundtrip.2 128 5 (by decide) (by decide)
  exact ⟨by decide, by decide, rfl, by simpa using h1, h2.1, h2.2⟩

/-- C1 (amended): a transient read error makes read_word return 0, and the
data reads then treat the zero raw sample as a regular reading; a tick on
an all-failing bus behaves exactly like a tick on a bus reading zero. -/
theorem c1_read_failure_as_zero_sample (st : SensorState) :
    (∀ (b : Bool) (reg : Nat), read_word b failBus reg = 0) ∧
    read_accel_data st failBus = read_accel_data st zeroBus ∧
    read_gyro_data st failBus = read_gyro_data st zeroBus := by
  have hf : ∀ (b : Bool) (reg : Nat), read_word b failBus reg = 0 := by
    intro b reg
    cases b <;> simp [read_word, failBus]
  have hz : ∀ (b : Bool) (reg : Nat), read_word b zeroBus reg = 0 := by
    intro b reg
    cases b <;> simp [read_word, zeroBus, decode_word]
  have hra : rawAccel st.sensor_available failBus =
      rawAccel st.sensor_available zeroBus := by
    simp [rawAccel, hf, hz]
  have hrg : rawGyro st.sensor_available failBus =
      rawGyro st.sensor_available zeroBus := by
    simp [rawGyro, hf, hz]
  refine ⟨hf, ?_, ?_⟩
  · unfold read_accel_data
    rw [hra]
  · unfold read_gyro_data
    rw [hrg]

/-- Counterexample to C1 as stated: on an available state with nonzero
smoothed accel, a tick whose every register read fails returns a nonzero
vector and mutates the stored filter state. -/
theorem c1_counterexample :
    stAccel.sensor_available = true ∧
    (read_accel_data stAccel failBus).1 ≠ (⟨0, 0, 0⟩ : Vec3) ∧
    (read_accel_data stAccel failBus).2.last_accel ≠ stAccel.last_accel := by
  have hx : ((read_accel_data stAccel failBus).1).x = 19/20 := by
    norm_num [read_accel_data, stAccel, rawAccel, read_word, failBus,
      accelDeadZone, smooth, alpha, dead_zone_accel, vone, vzero]
  have hl : ((read_accel_data stAccel failBus).2).last_accel.x = 19/20 := by
    norm_num [read_accel_data, stAccel, rawAccel, read_word, failBus,
      accelDeadZone, smooth, alpha, dead_zone_accel, vone, vzero]
  refine ⟨rfl, fun heq => ?_, fun heq => ?_⟩
  · rw [heq] at hx
    norm_num at hx
  · rw [heq] at hl
    norm_num [stAccel, vone] at hl

/-- C5 (amended): a converted gyro value inside the dead zone is zeroed,
and the pre-smoothing output is exactly 0 provided the previous stored
value is within the rate limit; otherwise the rate limiter intervenes. -/
theorem c5_gyro_deadzone_amended (new prev : ℚ)
    (h1 : |new| < dead_zone_gyro) (h2 : |prev| ≤ max_change) :
    gyroPre new prev = 0 := by
  have hz : gyroDeadZone new = 0 := by
    unfold gyroDeadZone
    rw [if_pos h1]
  unfold gyroPre
  rw [hz]
  unfold gyroRateLimit
  rw [if_neg]
  simpa [abs_sub_comm] using not_lt.mpr h2

/-- Counterexample to C5 as stated: with new = 1/2 (inside the dead zone)
and previous stored value 10, the pre-smoothing output is 8, not 0: the
rate limiter overrides the zeroed value. -/
theorem c5_counterexample :
    |(1/2 : ℚ)| < dead_zone_gyro ∧ gyroPre (1/2) 10 ≠ 0 := by
  constructor
  · norm_num [dead_zone_gyro, abs_of_nonneg]
  · norm_num [gyroPre, gyroDeadZone, gyroRateLimit, dead_zone_gyro,
      max_change, abs_of_nonneg, zero_sub, abs_neg]

/-- Witness for the amended C5 at new = 1/2, prev = 1. -/
theorem c5_witness :
    |(1/2 : ℚ)| < dead_zone_gyro ∧ |(1 : ℚ)| ≤ max_change ∧
    gyroPre (1/2) 1 = 0 := by
  have h1 : |(1/2 : ℚ)| < dead_zone_gyro := by
    norm_num [dead_zone_gyro, abs_of_nonneg]
  have h2 : |(1 : ℚ)| ≤ max_change := by norm_num [max_change]
  exact ⟨h1, h2, c5_gyro_deadzone_amended (1/2) 1 h1 h2⟩

/-- C6: when the post-dead-zone value differs from the stored previous
value by more than max_change, the rate limiter outputs
prev + max_change * sign(new - prev), and read_gyro_data stores the
pre-smoothing triple as the new prev_gyro. -/
theorem c6_gyro_rate_limit :
    (∀ new prev : ℚ, |new - prev| > max_change →
        gyroRateLimit new prev = prev + max_change * sgn (new - prev)) ∧
    (∀ (st : SensorState) (bus : Bus), st.sensor_available = true →
        ((read_gyro_data st bus).2).prev_gyro =
          ⟨gyroPre (rawGyro st.sensor_available bus).x st.prev_gyro.x,
           gyroPre (rawGyro st.sensor_available bus).y st.prev_gyro.y,
           gyroPre (rawGyro st.sensor_available bus).z st.prev_gyro.z⟩) := by
  constructor
  · intro new prev h
    unfold gyroRateLimit sgn
    rw [if_pos h]
    rcases lt_trichotomy prev new with hlt | heq | hgt
    · rw [if_pos hlt, if_pos (by linarith : (0 : ℚ) < new - prev)]
    · exfalso
      rw [heq, sub_self, abs_zero] at h
      exact absurd h (by norm_num [max_change])
    · rw [if_neg (not_lt.mpr hgt.le),
          if_neg (by simp [sub_nonneg, hgt.le] : ¬ (0 : ℚ) < new - prev),
          if_pos (by linarith : new - prev < 0)]
  · intro st bus h
    simp [read_gyro_data, h]

/-- Witness for C6 at new = 10, prev = 0 and a concrete state and bus. -/
theorem c6_witness :
    |(10 : ℚ) - 0| > max_change ∧
    gyroRateLimit 10 0 = 0 + max_change * sgn (10 - 0) ∧
    stYaw.sensor_available = true ∧
    ((read_gyro_data stYaw zeroBus).2).prev_gyro =
      ⟨gyroPre (rawGyro stYaw.sensor_available zeroBus).x stYaw.prev_gyro.x,
       gyroPre (rawGyro stYaw.sensor_available zeroBus).y stYaw.prev_gyro.y,
       gyroPre (rawGyro stYaw.sensor_available zeroBus).z
         stYaw.prev_gyro.z⟩ := by
  have h1 : |(10 : ℚ) - 0| > max_change := by norm_num [max_change]
  exact ⟨h1, c6_gyro_rate_limit.1 10 0 h1, rfl,
         c6_gyro_rate_limit.2 stYaw zeroBus rfl⟩

/-- C7: when the converted accel value is within the dead zone of the
stored previous value, the pre-smoothing output is the previous value and
prev_accel keeps that value for the next tick. -/
theorem c7_accel_deadzone_freeze :
    (∀ new prev : ℚ, |new - prev| < dead_zone_accel →
        accelDeadZone new prev = prev) ∧
    (∀ (st : SensorState) (bus : Bus), st.sensor_available = true →
        |(rawAccel st.sensor_available bus).x - st.prev_accel.x| <
          dead_zone_accel →
        ((read_accel_data st bus).2).prev_accel.x = st.prev_accel.x) := by
  constructor
  · intro new prev h
    unfold accelDeadZone
    rw [if_pos h]
  · intro st bus h hd
    rw [h] at hd
    simp [read_accel_data, h, accelDeadZone, hd]

/-- Witness for C7 at new = 1/100, prev = 0 and a concrete state. -/
theorem c7_witness :
    |(1/100 : ℚ) - 0| < dead_zone_accel ∧
    accelDeadZone (1/100) 0 = 0 ∧
    stAccel.sensor_available = true ∧
    |(rawAccel stAccel.sensor_available zeroBus).x - stAccel.prev_accel.x| <
      dead_zone_accel ∧
    ((read_accel_data stAccel zeroBus).2).prev_accel.x =
      stAccel.prev_accel.x := by
  have h1 : |(1/100 : ℚ) - 0| < dead_zone_accel := by
    norm_num [dead_zone_accel, abs_of_nonneg]
  have h2 : |(rawAccel stAccel.sensor_available zeroBus).x -
      stAccel.prev_accel.x| < dead_zone_accel := by
    norm_num [rawAccel, read_word, zeroBus, decode_word, stAccel, vzero,
      dead_zone_accel]
  exact ⟨h1, c7_accel_deadzone_freeze.1 (1/100) 0 h1, rfl, h2,
         c7_accel_deadzone_freeze.2 stAccel zeroBus rfl h2⟩

/-- C8: the exponential smoothing used by read_accel_data and
read_gyro_data has its previous value as a fixed point: feeding the stored
filtered value back in leaves it unchanged, over any number of ticks. -/
theorem c8_smoothing_fixed_point (x : ℚ) :
    smooth x x = x ∧ ∀ n : ℕ, (fun p => smooth x p)^[n] x = x := by
  have h : smooth x x = x := by
    unfold smooth alpha
    ring
  exact ⟨h, fun n => Function.iterate_fixed h n⟩

/-- C2 (amended): the heading exposed by the update callback is the
widget's accumulated yaw taken modulo 360, and each tick the widget adds
the pipeline's yaw output times the tick's dt to that accumulated yaw
before the modulo; the modulo is not applied to the pipeline's yaw output
directly. -/
theorem c2_heading_accumulated (w : WidgetState) (st : SensorState)
    (bus : Bus) (dt : ℚ) :
    ((update w st bus dt).1).heading = qmod360 ((update w st bus dt).1).yaw ∧
    ((update w st bus dt).1).yaw =
      w.yaw + ((get_rotation_angles st bus).1).yaw * dt := by
  constructor <;> rfl

/-- Counterexample to C2 as stated: with accumulated pipeline yaw 30,
widget yaw 0 and dt = 1/30, the rendered heading is 1, while the
pipeline's yaw output modulo 360 is 30. -/
theorem c2_counterexample :
    ((get_rotation_angles stYaw zeroBus).1).yaw = 30 ∧
    ((update w0 stYaw zeroBus (1/30)).1).heading = 1 ∧
    ((update w0 stYaw zeroBus (1/30)).1).heading ≠
      qmod360 ((get_rotation_angles stYaw zeroBus).1).yaw := by
  have hyaw : ((get_rotation_angles stYaw zeroBus).1).yaw = 30 := by
    norm_num [get_rotation_angles, read_accel_data, read_gyro_data,
      rawAccel, rawGyro, read_word, zeroBus, decode_word, accelDeadZone,
      gyroPre, gyroDeadZone, gyroRateLimit, smooth, alpha,
      dead_zone_accel, dead_zone_gyro, max_change, stYaw, vzero]
  have hhd : ((update w0 stYaw zeroBus (1/30)).1).heading = 1 := by
    norm_num [update, w0, hyaw, qmod360]
  refine ⟨hyaw, hhd, ?_⟩
  rw [hhd, hyaw]
  norm_num [qmod360]

/-- C9: estimate_speed applies the dead-zone/scale/clamp tail to the
Euclidean magnitude of the filtered accel vector with 1 g removed from z;
its result always lies in [0, 200], and the tail is monotone non-decreasing
in the gravity-removed magnitude. -/
theorem c9_speed_clamped_monotone :
    (∀ (st : SensorState) (bus : Bus),
        0 ≤ (estimate_speed st bus).1 ∧ (estimate_speed st bus).1 ≤ 200) ∧
    (∀ m1 m2 : ℝ, m1 ≤ m2 → speedOfMagnitude m1 ≤ speedOfMagnitude m2) ∧
    (∀ (st : SensorState) (bus : Bus), st.sensor_available = true →
        (estimate_speed st bus).1 =
          speedOfMagnitude (Real.sqrt
            ((((read_accel_data st bus).1).x : ℝ) ^ 2 +
             (((read_accel_data st bus).1).y : ℝ) ^ 2 +
             ((((read_accel_data st bus).1).z : ℝ) - 1) ^ 2))) := by
  have hrange : ∀ m : ℝ, 0 ≤ speedOfMagnitude m ∧ speedOfMagnitude m ≤ 200 := by
    intro m
    unfold speedOfMagnitude
    exact ⟨le_max_left 0 _, max_le (by norm_num) (min_le_left _ _)⟩
  refine ⟨?_, ?_, ?_⟩
  · intro st bus
    unfold estimate_speed
    split
    · norm_num
    · exact hrange _
  · intro m1 m2 h
    unfold speedOfMagnitude
    rcases lt_or_le m2 (1/10) with h2 | h2
    · rw [if_pos (lt_of_le_of_lt h h2), if_pos h2]
    · rw [if_neg (not_lt.mpr h2)]
      rcases lt_or_le m1 (1/10) with h1 | h1
      · rw [if_pos h1]
        have hle : (0 : ℝ) * 10 ≤ m2 * 10 := by nlinarith
        exact max_le_max le_rfl (min_le_min le_rfl hle)
      · rw [if_neg (not_lt.mpr h1)]
        have hle : m1 * 10 ≤ m2 * 10 := by nlinarith
        exact max_le_max le_rfl (min_le_min le_rfl hle)
  · intro st bus h
    simp [estimate_speed, h]

/-- Witness for C9: monotonicity at 0 and 1, the range at a concrete state
and bus, and the magnitude formula at a concrete available state. -/
theorem c9_witness :
    (0 : ℝ) ≤ 1 ∧ speedOfMagnitude 0 ≤ speedOfMagnitude 1 ∧
    0 ≤ (estimate_speed stYaw zeroBus).1 ∧
    (estimate_speed stYaw zeroBus).1 ≤ 200 ∧
    stYaw.sensor_available = true ∧
    (estimate_speed stYaw zeroBus).1 =
      speedOfMagnitude (Real.sqrt
        ((((read_accel_data stYaw zeroBus).1).x : ℝ) ^ 2 +
         (((read_accel_data stYaw zeroBus).1).y : ℝ) ^ 2 +
         ((((read_accel_data stYaw zeroBus).1).z : ℝ) - 1) ^ 2)) := by
  exact ⟨by norm_num, c9_speed_clamped_monotone.2.1 0 1 (by norm_num),
         (c9_speed_clamped_monotone.1 stYaw zeroBus).1,
         (c9_speed_clamped_monotone.1 stYaw zeroBus).2, rfl,
         c9_speed_clamped_monotone.2.2 stYaw zeroBus rfl⟩

/-- Availability is preserved by an accelerometer read. -/
theorem read_accel_avail (st : SensorState) (bus : Bus) :
    ((read_accel_data st bus).2).sensor_available = st.sensor_available := by
  unfold read_accel_data
  split <;> rfl

/-- Availability is preserved by a gyro read. -/
theorem read_gyro_avail (st : SensorState) (bus : Bus) :
    ((read_gyro_data st bus).2).sensor_available = st.sensor_available := by
  unfold read_gyro_data
  split <;> rfl

/-- The x components returned and stored by an available accel read. -/
theorem read_accel_x (st : SensorState) (bus : Bus)
    (h : st.sensor_available = true) :
    ((read_accel_data st bus).1).x =
      smooth (accelDeadZone (rawAccel st.sensor_available bus).x
        st.prev_accel.x) st.last_accel.x ∧
    ((read_accel_data st bus).2).prev_accel.x =
      accelDeadZone (rawAccel st.sensor_available bus).x st.prev_accel.x ∧
    ((read_accel_data st bus).2).last_accel.x =
      smooth (accelDeadZone (rawAccel st.sensor_available bus).x
        st.prev_accel.x) st.last_accel.x := by
  refine ⟨?_, ?_, ?_⟩ <;> simp [read_accel_data, h]

/-- The x components returned and stored by an available gyro read. -/
theorem read_gyro_x (st : SensorState) (bus : Bus)
    (h : st.sensor_available = true) :
    ((read_gyro_data st bus).1).x =
      smooth (gyroPre (rawGyro st.sensor_available bus).x st.prev_gyro.x)
        st.last_gyro.x ∧
    ((read_gyro_data st bus).2).prev_gyro.x =
      gyroPre (rawGyro st.sensor_available bus).x st.prev_gyro.x ∧
    ((read_gyro_data st bus).2).last_gyro.x =
      smooth (gyroPre (rawGyro st.sensor_available bus).x st.prev_gyro.x)
        st.last_gyro.x := by
  refine ⟨?_, ?_, ?_⟩ <;> simp [read_gyro_data, h]

/-- Re-applying the accel dead zone to its own output with the same raw
value changes nothing. -/
theorem accelDeadZone_idem (a b : ℚ) :
    accelDeadZone a (accelDeadZone a b) = accelDeadZone a b := by
  by_cases hc : |a - b| < dead_zone_accel
  · simp only [accelDeadZone, if_pos hc]
  · simp only [accelDeadZone, if_neg hc, ite_self]

/-- C10 (amended): the data reads re-run the filter stages and mutate
state on every call; with identical raw bytes, two consecutive accel reads
return different values whenever the post-dead-zone input differs from the
stored smoothed value, two consecutive gyro reads return different values
whenever the second pre-smoothing value differs from the first returned
value, and one widget update drives the stored accel and gyro filter state
through three accel reads and two gyro reads. -/
theorem c10_filter_reapplication :
    (∀ (st : SensorState) (bus : Bus), st.sensor_available = true →
        accelDeadZone (rawAccel st.sensor_available bus).x
            st.prev_accel.x ≠ st.last_accel.x →
        ((read_accel_data st bus).1).x ≠
          ((read_accel_data (read_accel_data st bus).2 bus).1).x) ∧
    (∀ (st : SensorState) (bus : Bus), st.sensor_available = true →
        gyroPre (rawGyro st.sensor_available bus).x
            ((read_gyro_data st bus).2).prev_gyro.x ≠
          ((read_gyro_data st bus).1).x →
        ((read_gyro_data st bus).1).x ≠
          ((read_gyro_data (read_gyro_data st bus).2 bus).1).x) ∧
    (∀ (w : WidgetState) (st : SensorState) (bus : Bus) (dt : ℚ),
        ((update w st bus dt).2).prev_accel =
          (gyroT bus (accelT bus (accelT bus (gyroT bus
            (accelT bus st))))).prev_accel ∧
        ((update w st bus dt).2).last_accel =
          (gyroT bus (accelT bus (accelT bus (gyroT bus
            (accelT bus st))))).last_accel ∧
        ((update w st bus dt).2).prev_gyro =
          (gyroT bus (accelT bus (accelT bus (gyroT bus
            (accelT bus st))))).prev_gyro ∧
        ((update w st bus dt).2).last_gyro =
          (gyroT bus (accelT bus (accelT bus (gyroT bus
            (accelT bus st))))).last_gyro) := by
  refine ⟨?_, ?_, ?_⟩
  · intro st bus h hne
    obtain ⟨e1, ep, el⟩ := read_accel_x st bus h
    have h1 : ((read_accel_data st bus).2).sensor_available = true := by
      rw [read_accel_avail]
      exact h
    obtain ⟨f1, fp, fl⟩ := read_accel_x (read_accel_data st bus).2 bus h1
    rw [read_accel_avail st bus, ep, accelDeadZone_idem, el] at f1
    rw [e1, f1]
    intro hcontra
    apply hne
    unfold smooth alpha at hcontra
    linarith
  · intro st bus h hne
    obtain ⟨e1, ep, el⟩ := read_gyro_x st bus h
    have h1 : ((read_gyro_data st bus).2).sensor_available = true := by
      rw [read_gyro_avail]
      exact h
    obtain ⟨f1, fp, fl⟩ := read_gyro_x (read_gyro_data st bus).2 bus h1
    rw [read_gyro_avail st bus, el] at f1
    rw [e1] at hne ⊢
    rw [f1]
    intro hcontra
    apply hne
    unfold smooth alpha at hcontra ⊢
    linarith
  · intro w st bus dt
    by_cases h : st.sensor_available = false
    · refine ⟨?_, ?_, ?_, ?_⟩ <;>
        simp [update, get_rotation_angles, estimate_speed, read_accel_data,
          read_gyro_data, accelT, gyroT, h]
    · refine ⟨?_, ?_, ?_, ?_⟩ <;>
        simp [update, get_rotation_angles, estimate_speed, read_accel_data,
          read_gyro_data, accelT, gyroT, h]

/-- Counterexample to C10 as universally stated: at a state whose stored
smoothed gyro x is 112/19 with previous raw 10, a zero raw word gives a
post-dead-zone input of 8 (different from the stored smoothed value), yet
two consecutive gyro reads both return 6. -/
theorem c10_counterexample :
    stGyro.sensor_available = true ∧
    gyroPre (rawGyro stGyro.sensor_available zeroBus).x stGyro.prev_gyro.x ≠
      stGyro.last_gyro.x ∧
    ((read_gyro_data stGyro zeroBus).1).x =
      ((read_gyro_data (read_gyro_data stGyro zeroBus).2 zeroBus).1).x := by
  have hpre : gyroPre (rawGyro stGyro.sensor_available zeroBus).x
      stGyro.prev_gyro.x = 8 := by
    norm_num [gyroPre, gyroDeadZone, gyroRateLimit, rawGyro, read_word,
      zeroBus, decode_word, stGyro, vzero, dead_zone_gyro, max_change,
      zero_sub, abs_neg, abs_of_nonneg]
  have hne : gyroPre (rawGyro stGyro.sensor_available zeroBus).x
      stGyro.prev_gyro.x ≠ stGyro.last_gyro.x := by
    rw [hpre]
    norm_num [stGyro]
  have hv1 : ((read_gyro_data stGyro zeroBus).1).x = 6 := by
    norm_num [read_gyro_data, rawGyro, read_word, zeroBus, decode_word,
      gyroPre, gyroDeadZone, gyroRateLimit, smooth, alpha, stGyro, vzero,
      dead_zone_gyro, max_change, zero_sub, abs_neg, abs_of_nonneg]
  have hst1 : (read_gyro_data stGyro zeroBus).2 =
      ⟨true, vzero, ⟨6, 0, 0⟩, vzero, ⟨8, 0, 0⟩, 0, 0, 0⟩ := by
    norm_num [read_gyro_data, rawGyro, read_word, zeroBus, decode_word,
      gyroPre, gyroDeadZone, gyroRateLimit, smooth, alpha, stGyro, vzero,
      dead_zone_gyro, max_change, zero_sub, abs_neg, abs_of_nonneg,
      SensorState.mk.injEq, Vec3.mk.injEq]
  have hv2 : ((read_gyro_data (read_gyro_data stGyro zeroBus).2
      zeroBus).1).x = 6 := by
    rw [hst1]
    norm_num [read_gyro_data, rawGyro, read_word, zeroBus, decode_word,
      gyroPre, gyroDeadZone, gyroRateLimit, smooth, alpha, vzero,
      dead_zone_gyro, max_change, zero_sub, abs_neg, abs_of_nonneg]
  exact ⟨rfl, hne, by rw [hv1, hv2]⟩

/-- Witness for the amended C10 at concrete states and the zero bus. -/
theorem c10_witness :
    stAccel.sensor_available = true ∧
    accelDeadZone (rawAccel stAccel.sensor_available zeroBus).x
        stAccel.prev_accel.x ≠ stAccel.last_accel.x ∧
    ((read_accel_data stAccel zeroBus).1).x ≠
      ((read_accel_data (read_accel_data stAccel zeroBus).2 zeroBus).1).x ∧
    stGyro2.sensor_available = true ∧
    gyroPre (rawGyro stGyro2.sensor_available zeroBus).x
        ((read_gyro_data stGyro2 zeroBus).2).prev_gyro.x ≠
      ((read_gyro_data stGyro2 zeroBus).1).x ∧
    ((read_gyro_data stGyro2 zeroBus).1).x ≠
      ((read_gyro_data (read_gyro_data stGyro2 zeroBus).2 zeroBus).1).x ∧
    ((update w0 stYaw zeroBus (1/30)).2).prev_accel =
      (gyroT zeroBus (accelT zeroBus (accelT zeroBus (gyroT zeroBus
        (accelT zeroBus stYaw))))).prev_accel := by
  have ha : accelDeadZone (rawAccel stAccel.sensor_available zeroBus).x
      stAccel.prev_accel.x ≠ stAccel.last_accel.x := by
    norm_num [accelDeadZone, rawAccel, read_word, zeroBus, decode_word,
      stAccel, vzero, vone, dead_zone_accel]
  have hb : gyroPre (rawGyro stGyro2.sensor_available zeroBus).x
      ((read_gyro_data stGyro2 zeroBus).2).prev_gyro.x ≠
      ((read_gyro_data stGyro2 zeroBus).1).x := by
    norm_num [read_gyro_data, rawGyro, read_word, zeroBus, decode_word,
      gyroPre, gyroDeadZone, gyroRateLimit, smooth, alpha, stGyro2, vzero,
      vone, dead_zone_gyro, max_change]
  exact ⟨rfl, ha, c10_filter_reapplication.1 stAccel zeroBus rfl ha, rfl,
         hb, c10_filter_reapplication.2.1 stGyro2 zeroBus rfl hb,
         (c10_filter_reapplication.2.2 w0 stYaw zeroBus (1/30)).1⟩

end HUD
